import Mathlib

/-!
# Verification of the quote_calculator authentication core

Shallow embedding of `src/backend/src/features/auth/auth.service.ts` and
`auth.middleware.ts` (the token-based authentication core), together with
theorems settling the specification claims about it.

Conventions of the embedding:
* Times are seconds since epoch, as `Nat` (the `jsonwebtoken` library works in
  seconds).
* A JWT is modelled symbolically: `jwt.sign` produces a structured token that
  records the payload, `iat`, `exp` and the signing secret; `jwt.verify` checks
  the secret and the expiry.  Tokens arriving from the outside world may also
  be `malformed`.
* `bcryptjs` is modelled by a deterministic symbolic one-way hash; only the
  success/failure of `bcrypt.compare` is observable to the claims.
* The Prisma user store is a list of user records threaded explicitly through
  every operation; `findUnique` is a read, `create` is the only write.
* Thrown `Error(message)` values are modelled as `Except String`, the error
  being the message text, exactly as the service constructs them.
-/

deriving instance DecidableEq for Except

/-- The JWT payload signed by the service (`interface TokenPayload`). -/
structure TokenPayload where
  userId : String
  email : String
deriving DecidableEq, Repr

/-- The content of a structurally well-formed signed token: the claims, the
issued-at and expiry instants, and (symbolically) the secret it was signed
with. -/
structure SignedPayload where
  userId : String
  email : String
  iat : Nat
  exp : Nat
  sig : String
deriving DecidableEq, Repr

/-- A token string as presented to `jwt.verify`: either a token produced by
`jwt.sign`, or an arbitrary malformed string. -/
inductive Token where
  | signed (p : SignedPayload)
  | malformed (raw : String)
deriving DecidableEq, Repr

/-- Model of `jwt.sign(payload, secret, \x7b expiresIn \x7d)` at clock `now`:
embeds the claims with `iat = now` and `exp = now + expiresIn`, signed with
`secret`. -/
def jwtSign (payload : TokenPayload) (secret : String) (expiresIn : Nat)
    (now : Nat) : Token :=
  Token.signed
    { userId := payload.userId
      email := payload.email
      iat := now
      exp := now + expiresIn
      sig := secret }

/-- Model of `jwt.verify(token, secret)` at clock `now`: rejects malformed
tokens, signature mismatches, and expired tokens (`jsonwebtoken` treats a
token as expired once `now >= exp`), otherwise returns the embedded claims. -/
def jwtVerify (t : Token) (secret : String) (now : Nat) :
    Except String TokenPayload :=
  match t with
  | Token.malformed _ => Except.error "jwt malformed"
  | Token.signed p =>
    if p.sig ≠ secret then Except.error "invalid signature"
    else if p.exp ≤ now then Except.error "jwt expired"
    else Except.ok { userId := p.userId, email := p.email }

/-- Deterministic symbolic model of `bcrypt.hash(password, cost)`. -/
def bcryptHash (password : String) (cost : Nat) : String :=
  "bcrypt$" ++ toString cost ++ "$" ++ password

/-- Model of `bcrypt.compare(password, hash)`: succeeds exactly when `hash`
is the stored hash of `password` at the fixed cost used by the service. -/
def bcryptCompare (password hash : String) : Bool :=
  hash == bcryptHash password 10

/-- A user record as persisted by Prisma (`User` model): opaque id, unique
email, password hash, optional display name, creation timestamp. -/
structure UserRecord where
  id : String
  email : String
  password : String
  name : Option String
  createdAt : Nat
deriving DecidableEq, Repr

/-- The Prisma user table. -/
abbrev Store := List UserRecord

/-- `prisma.user.findUnique(\x7b where: \x7b email \x7d \x7d)`: a read returning the
record with the given email, and the store unchanged. -/
def Store.findUniqueByEmail (s : Store) (email : String) :
    Option UserRecord × Store :=
  (s.find? (fun u => u.email == email), s)

/-- `prisma.user.findUnique(\x7b where: \x7b id \x7d \x7d)`: a read returning the
record with the given id, and the store unchanged. -/
def Store.findUniqueById (s : Store) (id : String) :
    Option UserRecord × Store :=
  (s.find? (fun u => u.id == id), s)

/-- `prisma.user.create(\x7b data \x7d)`: appends the new record, the only write
performed by the authentication core. -/
def Store.create (s : Store) (u : UserRecord) : UserRecord × Store :=
  (u, s ++ [u])

/-- Public projection returned by `register`/`login`
(`select: \x7b id, email, name \x7d`). -/
structure PublicUser where
  id : String
  email : String
  name : Option String
deriving DecidableEq, Repr

/-- Projection returned by `getUserById`
(`select: \x7b id, email, name, createdAt \x7d`). -/
structure UserProfile where
  id : String
  email : String
  name : Option String
  createdAt : Nat
deriving DecidableEq, Repr

/-- The `select \x7b id, email, name \x7d` projection of a stored record. -/
def publicProjection (u : UserRecord) : PublicUser :=
  { id := u.id, email := u.email, name := u.name }

/-- The `select \x7b id, email, name, createdAt \x7d` projection of a stored
record. -/
def profileProjection (u : UserRecord) : UserProfile :=
  { id := u.id, email := u.email, name := u.name, createdAt := u.createdAt }

/-- A record with its password hash replaced (used to state that returned
values are independent of the stored hash). -/
def UserRecord.withPassword (u : UserRecord) (p : String) : UserRecord :=
  { u with password := p }

/-- `interface AuthTokens`. -/
structure AuthTokens where
  accessToken : Token
  refreshToken : Token
deriving DecidableEq, Repr

/-- `interface AuthResponse`: the token pair plus the public user. -/
structure AuthResponse where
  accessToken : Token
  refreshToken : Token
  user : PublicUser
deriving DecidableEq, Repr

/-- Result of `refreshAccessToken`. -/
structure RefreshResult where
  accessToken : Token
deriving DecidableEq, Repr

/-- `RegisterInput` from `auth.validation.ts`. -/
structure RegisterInput where
  email : String
  password : String
  name : Option String
deriving DecidableEq, Repr

/-- `LoginInput` from `auth.validation.ts`. -/
structure LoginInput where
  email : String
  password : String
deriving DecidableEq, Repr

/-- `ACCESS_TOKEN_EXPIRY = '15m'`, in seconds. -/
def ACCESS_TOKEN_EXPIRY : Nat := 15 * 60

/-- `REFRESH_TOKEN_EXPIRY = '7d'`, in seconds. -/
def REFRESH_TOKEN_EXPIRY : Nat := 7 * 24 * 60 * 60

/-- The service configuration: the two signing secrets fixed by the
constructor. -/
structure AuthService where
  ACCESS_TOKEN_SECRET : String
  REFRESH_TOKEN_SECRET : String
deriving DecidableEq, Repr

/-- The `AuthService` constructor: each secret comes from the environment
when set, otherwise from the hard-coded fallback constant. -/
def AuthService.make (envAccess envRefresh : Option String) : AuthService :=
  { ACCESS_TOKEN_SECRET := envAccess.getD "your-access-secret-change-this"
    REFRESH_TOKEN_SECRET := envRefresh.getD "your-refresh-secret-change-this" }

/-- The service as constructed with neither environment variable set. -/
def defaultAuthService : AuthService :=
  AuthService.make none none

/-- `generateAccessToken`: signs the payload with the access secret and the
15-minute expiry. -/
def AuthService.generateAccessToken (svc : AuthService) (payload : TokenPayload)
    (now : Nat) : Token :=
  jwtSign payload svc.ACCESS_TOKEN_SECRET ACCESS_TOKEN_EXPIRY now

/-- `generateRefreshToken`: signs the payload with the refresh secret and the
7-day expiry. -/
def AuthService.generateRefreshToken (svc : AuthService) (payload : TokenPayload)
    (now : Nat) : Token :=
  jwtSign payload svc.REFRESH_TOKEN_SECRET REFRESH_TOKEN_EXPIRY now

/-- `generateTokens`: both tokens for the same payload. -/
def AuthService.generateTokens (svc : AuthService) (payload : TokenPayload)
    (now : Nat) : AuthTokens :=
  { accessToken := svc.generateAccessToken payload now
    refreshToken := svc.generateRefreshToken payload now }

/-- `register`: checks for an existing user with the email (throws
`"User with this email already exists"`), otherwise hashes the password,
creates the record (with fresh opaque id `newId` and timestamp `now`),
issues both tokens, and returns them with the public projection. -/
def AuthService.register (svc : AuthService) (s : Store) (data : RegisterInput)
    (newId : String) (now : Nat) : Except String AuthResponse × Store :=
  let r := s.findUniqueByEmail data.email
  match r.1 with
  | some _ => (Except.error "User with this email already exists", r.2)
  | none =>
    let hashedPassword := bcryptHash data.password 10
    let c := r.2.create
      { id := newId
        email := data.email
        password := hashedPassword
        name := data.name
        createdAt := now }
    let tokens := svc.generateTokens { userId := c.1.id, email := c.1.email } now
    (Except.ok
      { accessToken := tokens.accessToken
        refreshToken := tokens.refreshToken
        user := { id := c.1.id, email := c.1.email, name := c.1.name } }, c.2)

/-- `login`: finds the user by email (throws `"Invalid email or password"` if
absent), compares the password hash (same error on mismatch), otherwise
issues both tokens with the public projection. -/
def AuthService.login (svc : AuthService) (s : Store) (data : LoginInput)
    (now : Nat) : Except String AuthResponse × Store :=
  let r := s.findUniqueByEmail data.email
  match r.1 with
  | none => (Except.error "Invalid email or password", r.2)
  | some user =>
    if bcryptCompare data.password user.password then
      let tokens := svc.generateTokens { userId := user.id, email := user.email } now
      (Except.ok
        { accessToken := tokens.accessToken
          refreshToken := tokens.refreshToken
          user := { id := user.id, email := user.email, name := user.name } }, r.2)
    else
      (Except.error "Invalid email or password", r.2)

/-- `refreshAccessToken`: inside a single try block, verifies the refresh
token against the refresh secret, re-fetches the user by the embedded id
(throwing `"User not found"` when absent), and issues a new access token;
the catch converts every failure of the body, including the user-not-found
throw, into `"Invalid refresh token"`. -/
def AuthService.refreshAccessToken (svc : AuthService) (s : Store)
    (refreshToken : Token) (now : Nat) : Except String RefreshResult × Store :=
  let body : Except String RefreshResult × Store :=
    match jwtVerify refreshToken svc.REFRESH_TOKEN_SECRET now with
    | Except.error e => (Except.error e, s)
    | Except.ok payload =>
      let r := s.findUniqueById payload.userId
      match r.1 with
      | none => (Except.error "User not found", r.2)
      | some user =>
        (Except.ok
          { accessToken :=
              svc.generateAccessToken { userId := user.id, email := user.email } now },
          r.2)
  match body.1 with
  | Except.ok res => (Except.ok res, body.2)
  | Except.error _ => (Except.error "Invalid refresh token", body.2)

/-- `verifyAccessToken`: verifies against the access secret; every failure is
rethrown as `"Invalid access token"`. -/
def AuthService.verifyAccessToken (svc : AuthService) (token : Token)
    (now : Nat) : Except String TokenPayload :=
  match jwtVerify token svc.ACCESS_TOKEN_SECRET now with
  | Except.ok p => Except.ok p
  | Except.error _ => Except.error "Invalid access token"

/-- `getUserById`: finds the user by id with the
`\x7b id, email, name, createdAt \x7d` selection; throws `"User not found"`
when absent. -/
def AuthService.getUserById (svc : AuthService) (s : Store) (userId : String) :
    Except String UserProfile × Store :=
  let _ := svc
  let r := s.findUniqueById userId
  match r.1 with
  | none => (Except.error "User not found", r.2)
  | some u =>
    (Except.ok
      { id := u.id, email := u.email, name := u.name, createdAt := u.createdAt },
      r.2)

/-- `AuthController.logout`: acknowledges without touching the service or the
store. -/
structure LogoutResponse where
  success : Bool
  message : String
deriving DecidableEq, Repr

/-- The logout handler: a 200 acknowledgement, no store access at all. -/
def logoutHandler (s : Store) : LogoutResponse × Store :=
  ({ success := true, message := "Logout successful" }, s)

/-- Outcome of the auth middleware: a 401 response (next not called), or the
request forwarded with the verified identity attached. -/
inductive MwOutcome where
  | unauthorized (message : String)
  | authorized (userId : String) (email : String)
deriving DecidableEq, Repr

/-- Model of the JavaScript `header.startsWith(prefix)`, at the level of the
character sequence of the string. -/
def strStartsWith (s pre : String) : Bool :=
  pre.data.isPrefixOf s.data

/-- Model of the JavaScript `header.substring(n)`: drops the first `n`
characters. -/
def strDrop (s : String) (n : Nat) : String :=
  String.mk (s.data.drop n)

/-- `authMiddleware` from `auth.middleware.ts`, parametrised by the access
verifier acting on the raw token string (the service call
`authService.verifyAccessToken`): a missing header or one without the
`"Bearer "` prefix is answered 401 `"No token provided"`; otherwise the
substring after the 7-character prefix is verified, a failure is answered
401 `"Invalid or expired token"`, and success attaches
`\x7b userId, email \x7d` from the claims. -/
def authMiddleware (verifyAccess : String → Except String TokenPayload)
    (authorization : Option String) : MwOutcome :=
  match authorization with
  | none => MwOutcome.unauthorized "No token provided"
  | some authHeader =>
    if strStartsWith authHeader "Bearer " then
      let token := strDrop authHeader 7
      match verifyAccess token with
      | Except.ok payload => MwOutcome.authorized payload.userId payload.email
      | Except.error _ => MwOutcome.unauthorized "Invalid or expired token"
    else
      MwOutcome.unauthorized "No token provided"

/-! ## Claims -/

/-- C1: the claim says a refresh token that verifies correctly but whose
embedded identity no longer matches a user record fails with a distinct
`IdentityNotFound` error, distinguishable from the `InvalidCredential`
error of a malformed or forged token.  The code throws
`"User not found"` inside its own try block, so the catch converts it to
the generic `"Invalid refresh token"`: at the failing input below (a
correctly signed, unexpired refresh token for an absent user) the error
is byte-identical to the one for a malformed token. -/
theorem C1_missing_user_error_equals_invalid_token_error :
    (defaultAuthService.refreshAccessToken []
        (defaultAuthService.generateRefreshToken ⟨"ghost", "g@x.com"⟩ 0) 100).1 =
      Except.error "Invalid refresh token" ∧
    (defaultAuthService.refreshAccessToken [] (Token.malformed "garbage") 100).1 =
      Except.error "Invalid refresh token" :=
  ⟨rfl, rfl⟩

/-- C2: verifying, at any instant strictly before expiry, an access token
issued for claims `c` succeeds and returns exactly `c`. -/
theorem C2_access_token_roundtrip (svc : AuthService) (c : TokenPayload)
    (issuedAt now : Nat) (h : now < issuedAt + ACCESS_TOKEN_EXPIRY) :
    svc.verifyAccessToken (svc.generateAccessToken c issuedAt) now =
      Except.ok c := by
  simp [AuthService.verifyAccessToken, AuthService.generateAccessToken,
    jwtSign, jwtVerify, Nat.not_le.mpr h]

/-- C2 witness: the round trip at a concrete service, claims and clock. -/
theorem C2_access_token_roundtrip_witness :
    (10 : Nat) < 3 + ACCESS_TOKEN_EXPIRY ∧
    defaultAuthService.verifyAccessToken
        (defaultAuthService.generateAccessToken ⟨"u1", "a@x.com"⟩ 3) 10 =
      Except.ok ⟨"u1", "a@x.com"⟩ :=
  ⟨by decide, C2_access_token_roundtrip defaultAuthService ⟨"u1", "a@x.com"⟩ 3 10 (by decide)⟩

/-- C3: with distinct secrets (as the constructor installs), a refresh token
always fails access verification, and an access token always fails the
refresh verification performed inside `refreshAccessToken`. -/
theorem C3_cross_kind_rejection (svc : AuthService) (c : TokenPayload)
    (t now : Nat) (s : Store)
    (h : svc.ACCESS_TOKEN_SECRET ≠ svc.REFRESH_TOKEN_SECRET) :
    svc.verifyAccessToken (svc.generateRefreshToken c t) now =
      Except.error "Invalid access token" ∧
    (svc.refreshAccessToken s (svc.generateAccessToken c t) now).1 =
      Except.error "Invalid refresh token" := by
  constructor
  · simp [AuthService.verifyAccessToken, AuthService.generateRefreshToken,
      jwtSign, jwtVerify, Ne.symm h]
  · simp [AuthService.refreshAccessToken, AuthService.generateAccessToken,
      jwtSign, jwtVerify, h]

/-- C3 witness: cross-kind rejection for the default service, whose two
fallback secrets are distinct. -/
theorem C3_cross_kind_rejection_witness :
    defaultAuthService.ACCESS_TOKEN_SECRET ≠ defaultAuthService.REFRESH_TOKEN_SECRET ∧
    (defaultAuthService.verifyAccessToken
        (defaultAuthService.generateRefreshToken ⟨"u1", "a@x.com"⟩ 0) 5 =
      Except.error "Invalid access token" ∧
    (defaultAuthService.refreshAccessToken []
        (defaultAuthService.generateAccessToken ⟨"u1", "a@x.com"⟩ 0) 5).1 =
      Except.error "Invalid refresh token") :=
  ⟨by decide, C3_cross_kind_rejection defaultAuthService ⟨"u1", "a@x.com"⟩ 0 5 [] (by decide)⟩

/-- C4: a login failing because no record matches the email and a login
failing because the hash comparison fails produce the identical
`"Invalid email or password"` error. -/
theorem C4_login_failures_identical (svc : AuthService) (s1 s2 : Store)
    (d1 d2 : LoginInput) (now1 now2 : Nat) (u : UserRecord)
    (h1 : (s1.findUniqueByEmail d1.email).1 = none)
    (h2 : (s2.findUniqueByEmail d2.email).1 = some u)
    (h3 : bcryptCompare d2.password u.password = false) :
    (svc.login s1 d1 now1).1 = Except.error "Invalid email or password" ∧
    (svc.login s2 d2 now2).1 = Except.error "Invalid email or password" ∧
    (svc.login s1 d1 now1).1 = (svc.login s2 d2 now2).1 := by
  have e1 : (svc.login s1 d1 now1).1 = Except.error "Invalid email or password" := by
    simp [AuthService.login, h1]
  have e2 : (svc.login s2 d2 now2).1 = Except.error "Invalid email or password" := by
    simp [AuthService.login, h2, h3]
  exact ⟨e1, e2, e1.trans e2.symm⟩

/-- Record used to witness the wrong-password branch of C4. -/
def C4user : UserRecord :=
  { id := "u1", email := "a@x.com", password := bcryptHash "Correct1" 10,
    name := none, createdAt := 0 }

/-- C4 witness: a concrete unknown-email failure and a concrete
wrong-password failure carry the same error. -/
theorem C4_login_failures_identical_witness :
    (defaultAuthService.login [] ⟨"b@x.com", "whatever"⟩ 0).1 =
      Except.error "Invalid email or password" ∧
    (defaultAuthService.login [C4user] ⟨"a@x.com", "Wrong1234"⟩ 7).1 =
      Except.error "Invalid email or password" ∧
    (defaultAuthService.login [] ⟨"b@x.com", "whatever"⟩ 0).1 =
      (defaultAuthService.login [C4user] ⟨"a@x.com", "Wrong1234"⟩ 7).1 :=
  C4_login_failures_identical defaultAuthService [] [C4user]
    ⟨"b@x.com", "whatever"⟩ ⟨"a@x.com", "Wrong1234"⟩ 0 7 C4user
    (by decide) (by decide) (by decide)

/-- If the predicate holds of `u`, a `find?` over `l ++ [u]` yields some
record. -/
theorem find?_append_singleton_isSome (l : List UserRecord) (u : UserRecord)
    (p : UserRecord → Bool) (h : p u = true) :
    ∃ v, (l ++ [u]).find? p = some v := by
  induction l with
  | nil => exact ⟨u, by simp [List.find?, h]⟩
  | cons a t ih =>
    cases hpa : p a with
    | false => simpa [List.find?, hpa] using ih
    | true => exact ⟨a, by simp [List.find?, hpa]⟩

/-- C5: `register` fails with the duplicate error exactly when a record with
the email already exists, and a second registration of an email that was
just successfully registered fails with the duplicate error. -/
theorem C5_register_duplicate_exactly (svc : AuthService) (s : Store)
    (d : RegisterInput) (newId : String) (now : Nat) :
    ((svc.register s d newId now).1 =
        Except.error "User with this email already exists" ↔
      ∃ u, (s.findUniqueByEmail d.email).1 = some u) ∧
    (∀ resp s2, svc.register s d newId now = (Except.ok resp, s2) →
      ∀ d2 newId2 now2, d2.email = d.email →
        (svc.register s2 d2 newId2 now2).1 =
          Except.error "User with this email already exists") := by
  constructor
  · cases hf : (s.findUniqueByEmail d.email).1 with
    | none => simp [AuthService.register, hf]
    | some u => simp [AuthService.register, hf]
  · intro resp s2 hok d2 newId2 now2 hemail
    cases hf : (s.findUniqueByEmail d.email).1 with
    | some u => simp [AuthService.register, hf] at hok
    | none =>
      have hs2 : s2 = s ++
          [{ id := newId, email := d.email, password := bcryptHash d.password 10,
             name := d.name, createdAt := now }] := by
        simp [AuthService.register, hf, Store.create] at hok
        exact hok.2.symm
      obtain ⟨v, hv⟩ := find?_append_singleton_isSome s
        { id := newId, email := d.email, password := bcryptHash d.password 10,
          name := d.name, createdAt := now }
        (fun u => u.email == d2.email) (by simp [hemail])
      have hfind : (Store.findUniqueByEmail s2 d2.email).1 = some v := by
        simpa [Store.findUniqueByEmail, hs2] using hv
      simp [AuthService.register, hfind]

/-- Sanity helper for the C5 witness: the record created by the first
registration. -/
def C5rec : UserRecord :=
  { id := "u1", email := "a@x.com", password := bcryptHash "Abcd1234" 10,
    name := none, createdAt := 0 }

/-- C5 witness: the second registration for a just-registered email fails
with the duplicate error. -/
theorem C5_register_duplicate_exactly_witness :
    (defaultAuthService.register [C5rec] ⟨"a@x.com", "Zzzz9999", none⟩ "u2" 5).1 =
      Except.error "User with this email already exists" :=
  (C5_register_duplicate_exactly defaultAuthService [] ⟨"a@x.com", "Abcd1234", none⟩
      "u1" 0).2
    { accessToken := defaultAuthService.generateAccessToken ⟨"u1", "a@x.com"⟩ 0
      refreshToken := defaultAuthService.generateRefreshToken ⟨"u1", "a@x.com"⟩ 0
      user := { id := "u1", email := "a@x.com", name := none } }
    [C5rec] (by rfl) ⟨"a@x.com", "Zzzz9999", none⟩ "u2" 5 rfl

/-- Records used to refute C6 as stated: identical in id, email, name (and
even password), differing only in creation timestamp. -/
def C6recA : UserRecord :=
  { id := "u1", email := "a@x.com", password := "h", name := none, createdAt := 0 }

/-- Second record for the C6 counterexample, differing from the first only in
`createdAt`. -/
def C6recB : UserRecord :=
  { id := "u1", email := "a@x.com", password := "h", name := none, createdAt := 1 }

/-- C6 counterexample: the claim says only the fields identity, email and
name are returned, so the result of `getUserById` would be a function of
those three fields alone; but on two records agreeing on id, email, name
(and password) and differing only in `createdAt`, `getUserById` returns
different values — the code also returns `createdAt`. -/
theorem C6_getUserById_not_only_public_fields :
    C6recA.id = C6recB.id ∧ C6recA.email = C6recB.email ∧
    C6recA.name = C6recB.name ∧
    (defaultAuthService.getUserById [C6recA] "u1").1 ≠
      (defaultAuthService.getUserById [C6recB] "u1").1 :=
  ⟨rfl, rfl, rfl, by decide⟩

/-- C6 amended: every successful `register` or `login` returns exactly the
public projection (id, email, name) of the record; every successful
`getUserById` returns exactly the (id, email, name, createdAt)
projection; and both projections are independent of the stored password
hash, so the hash is never part of a returned user value. -/
theorem C6_amended_projections_never_expose_hash (svc : AuthService) (s : Store) :
    (∀ d newId now resp s2, svc.register s d newId now = (Except.ok resp, s2) →
      resp.user = { id := newId, email := d.email, name := d.name }) ∧
    (∀ d now resp s2, svc.login s d now = (Except.ok resp, s2) →
      ∃ u, (s.findUniqueByEmail d.email).1 = some u ∧
        resp.user = publicProjection u) ∧
    (∀ uid r s2, svc.getUserById s uid = (Except.ok r, s2) →
      ∃ u, (s.findUniqueById uid).1 = some u ∧ r = profileProjection u) ∧
    (∀ u p, publicProjection (u.withPassword p) = publicProjection u ∧
      profileProjection (u.withPassword p) = profileProjection u) := by
  refine ⟨?_, ?_, ?_, ?_⟩
  · intro d newId now resp s2 hok
    cases hf : (s.findUniqueByEmail d.email).1 with
    | some u => simp [AuthService.register, hf] at hok
    | none =>
      simp [AuthService.register, hf, Store.create] at hok
      rw [← hok.1]
  · intro d now resp s2 hok
    cases hf : (s.findUniqueByEmail d.email).1 with
    | none => simp [AuthService.login, hf] at hok
    | some u =>
      refine ⟨u, rfl, ?_⟩
      cases hc : bcryptCompare d.password u.password with
      | false => simp [AuthService.login, hf, hc] at hok
      | true =>
        simp [AuthService.login, hf, hc] at hok
        rw [← hok.1]
        rfl
  · intro uid r s2 hok
    cases hf : (s.findUniqueById uid).1 with
    | none => simp [AuthService.getUserById, hf] at hok
    | some u =>
      refine ⟨u, rfl, ?_⟩
      simp [AuthService.getUserById, hf] at hok
      rw [← hok.1]
      rfl
  · intro u p
    exact ⟨rfl, rfl⟩

/-- C6 amended witness: the three success shapes at a concrete store. -/
theorem C6_amended_projections_witness :
    ∃ u, (Store.findUniqueById [C4user] "u1").1 = some u ∧
      { id := "u1", email := "a@x.com", name := none, createdAt := 0 : UserProfile } =
        profileProjection u :=
  (C6_amended_projections_never_expose_hash defaultAuthService [C4user]).2.2.1
    "u1" { id := "u1", email := "a@x.com", name := none, createdAt := 0 }
    [C4user] (by rfl)

/-- C7: access tokens expire 15 minutes after issuance and refresh tokens 7
days after; each kind verifies successfully one second before its expiry
instant and fails with the generic invalid-credential error one second
after (refresh verification being the one performed inside
`refreshAccessToken`, on a store still holding the user). -/
theorem C7_expiry_boundaries (svc : AuthService) (c : TokenPayload) (t : Nat)
    (s : Store) (u : UserRecord)
    (hu : (s.findUniqueById c.userId).1 = some u) :
    svc.generateAccessToken c t =
      Token.signed
        { userId := c.userId, email := c.email, iat := t,
          exp := t + 15 * 60, sig := svc.ACCESS_TOKEN_SECRET } ∧
    svc.generateRefreshToken c t =
      Token.signed
        { userId := c.userId, email := c.email, iat := t,
          exp := t + 7 * 24 * 60 * 60, sig := svc.REFRESH_TOKEN_SECRET } ∧
    svc.verifyAccessToken (svc.generateAccessToken c t)
        (t + ACCESS_TOKEN_EXPIRY - 1) = Except.ok c ∧
    svc.verifyAccessToken (svc.generateAccessToken c t)
        (t + ACCESS_TOKEN_EXPIRY + 1) = Except.error "Invalid access token" ∧
    (svc.refreshAccessToken s (svc.generateRefreshToken c t)
        (t + REFRESH_TOKEN_EXPIRY - 1)).1 =
      Except.ok
        { accessToken := svc.generateAccessToken { userId := u.id, email := u.email }
            (t + REFRESH_TOKEN_EXPIRY - 1) } ∧
    (svc.refreshAccessToken s (svc.generateRefreshToken c t)
        (t + REFRESH_TOKEN_EXPIRY + 1)).1 =
      Except.error "Invalid refresh token" := by
  have hA : ¬ (t + ACCESS_TOKEN_EXPIRY ≤ t + ACCESS_TOKEN_EXPIRY - 1) := by
    simp [ACCESS_TOKEN_EXPIRY]
  have hA2 : t + ACCESS_TOKEN_EXPIRY ≤ t + ACCESS_TOKEN_EXPIRY + 1 := by
    omega
  have hR : ¬ (t + REFRESH_TOKEN_EXPIRY ≤ t + REFRESH_TOKEN_EXPIRY - 1) := by
    simp [REFRESH_TOKEN_EXPIRY]
  have hR2 : t + REFRESH_TOKEN_EXPIRY ≤ t + REFRESH_TOKEN_EXPIRY + 1 := by
    omega
  refine ⟨rfl, rfl, ?_, ?_, ?_, ?_⟩
  · simp [AuthService.verifyAccessToken, AuthService.generateAccessToken,
      jwtSign, jwtVerify, hA]
  · simp [AuthService.verifyAccessToken, AuthService.generateAccessToken,
      jwtSign, jwtVerify, hA2]
  · simp [AuthService.refreshAccessToken, AuthService.generateRefreshToken,
      jwtSign, jwtVerify, hR, hu]
  · simp [AuthService.refreshAccessToken, AuthService.generateRefreshToken,
      jwtSign, jwtVerify, hR2]

/-- C7 witness: the boundary behaviour at a concrete service, store and
claims. -/
theorem C7_expiry_boundaries_witness :
    (Store.findUniqueById [C4user] "u1").1 = some C4user ∧
    (defaultAuthService.verifyAccessToken
        (defaultAuthService.generateAccessToken ⟨"u1", "a@x.com"⟩ 20)
        (20 + ACCESS_TOKEN_EXPIRY - 1) = Except.ok ⟨"u1", "a@x.com"⟩ ∧
    defaultAuthService.verifyAccessToken
        (defaultAuthService.generateAccessToken ⟨"u1", "a@x.com"⟩ 20)
        (20 + ACCESS_TOKEN_EXPIRY + 1) = Except.error "Invalid access token" ∧
    (defaultAuthService.refreshAccessToken [C4user]
        (defaultAuthService.generateRefreshToken ⟨"u1", "a@x.com"⟩ 20)
        (20 + REFRESH_TOKEN_EXPIRY + 1)).1 = Except.error "Invalid refresh token") :=
  ⟨by rfl,
    (C7_expiry_boundaries defaultAuthService ⟨"u1", "a@x.com"⟩ 20 [C4user] C4user
        (by rfl)).2.2.1,
    (C7_expiry_boundaries defaultAuthService ⟨"u1", "a@x.com"⟩ 20 [C4user] C4user
        (by rfl)).2.2.2.1,
    (C7_expiry_boundaries defaultAuthService ⟨"u1", "a@x.com"⟩ 20 [C4user] C4user
        (by rfl)).2.2.2.2.2⟩

/-- C8: access verification collapses every failure — malformed token, wrong
signing secret, passed expiry — to the single error
`"Invalid access token"`; no other error value is possible. -/
theorem C8_verify_single_error_kind (svc : AuthService) (token : Token)
    (now : Nat) :
    (∀ e, svc.verifyAccessToken token now = Except.error e →
      e = "Invalid access token") ∧
    (∀ raw, svc.verifyAccessToken (Token.malformed raw) now =
      Except.error "Invalid access token") ∧
    (∀ p : SignedPayload, p.sig ≠ svc.ACCESS_TOKEN_SECRET →
      svc.verifyAccessToken (Token.signed p) now =
        Except.error "Invalid access token") ∧
    (∀ p : SignedPayload, p.exp ≤ now →
      svc.verifyAccessToken (Token.signed p) now =
        Except.error "Invalid access token") := by
  refine ⟨?_, ?_, ?_, ?_⟩
  · intro e he
    unfold AuthService.verifyAccessToken at he
    cases h : jwtVerify token svc.ACCESS_TOKEN_SECRET now with
    | ok p => rw [h] at he; exact absurd he (by simp)
    | error msg => rw [h] at he; simpa using he.symm
  · intro raw
    simp [AuthService.verifyAccessToken, jwtVerify]
  · intro p hp
    simp [AuthService.verifyAccessToken, jwtVerify, hp]
  · intro p hp
    by_cases hs : p.sig = svc.ACCESS_TOKEN_SECRET
    · simp [AuthService.verifyAccessToken, jwtVerify, hs, hp]
    · simp [AuthService.verifyAccessToken, jwtVerify, hs]

/-- C8 witness: the collapsed error at a malformed token, a forged signature
and an expired token, concretely. -/
theorem C8_verify_single_error_kind_witness :
    defaultAuthService.verifyAccessToken (Token.malformed "xyz") 0 =
      Except.error "Invalid access token" ∧
    defaultAuthService.verifyAccessToken
        (Token.signed
          { userId := "u1", email := "a@x.com", iat := 0,
            exp := 900, sig := "wrong" }) 0 =
      Except.error "Invalid access token" ∧
    defaultAuthService.verifyAccessToken
        (Token.signed
          { userId := "u1", email := "a@x.com", iat := 0,
            exp := 900, sig := defaultAuthService.ACCESS_TOKEN_SECRET }) 901 =
      Except.error "Invalid access token" :=
  ⟨(C8_verify_single_error_kind defaultAuthService (Token.malformed "xyz") 0).2.1 "xyz",
    (C8_verify_single_error_kind defaultAuthService (Token.malformed "xyz") 0).2.2.1
      { userId := "u1", email := "a@x.com", iat := 0, exp := 900, sig := "wrong" }
      (by decide),
    (C8_verify_single_error_kind defaultAuthService (Token.malformed "xyz") 901).2.2.2
      { userId := "u1", email := "a@x.com", iat := 0, exp := 900,
        sig := defaultAuthService.ACCESS_TOKEN_SECRET }
      (by decide)⟩

/-- C9: a missing Authorization header, or one not starting with the
7-character prefix `"Bearer "`, is answered 401 `"No token provided"`
regardless of the verifier (so verification is never consulted);
otherwise the middleware verifies exactly the substring after the prefix
and, on success, attaches the userId and email from the verified
claims, answering 401 `"Invalid or expired token"` on failure. -/
theorem C9_middleware_contract
    (verifyAccess : String → Except String TokenPayload)
    (authorization : Option String) :
    (authorization = none →
      authMiddleware verifyAccess authorization =
        MwOutcome.unauthorized "No token provided") ∧
    (∀ hdr, authorization = some hdr → strStartsWith hdr "Bearer " = false →
      authMiddleware verifyAccess authorization =
        MwOutcome.unauthorized "No token provided") ∧
    (∀ hdr, authorization = some hdr → strStartsWith hdr "Bearer " = true →
      authMiddleware verifyAccess authorization =
        match verifyAccess (strDrop hdr 7) with
        | Except.ok payload => MwOutcome.authorized payload.userId payload.email
        | Except.error _ => MwOutcome.unauthorized "Invalid or expired token") := by
  refine ⟨?_, ?_, ?_⟩
  · intro h
    subst h
    rfl
  · intro hdr h hpre
    subst h
    simp [authMiddleware, hpre]
  · intro hdr h hpre
    subst h
    simp only [authMiddleware, hpre, if_true]

/-- C9 witness: the three middleware behaviours at a concrete verifier and
concrete headers. -/
theorem C9_middleware_contract_witness :
    authMiddleware (fun _ => Except.ok ⟨"u1", "a@x.com"⟩) none =
      MwOutcome.unauthorized "No token provided" ∧
    authMiddleware (fun _ => Except.ok ⟨"u1", "a@x.com"⟩) (some "Basic abc") =
      MwOutcome.unauthorized "No token provided" ∧
    authMiddleware (fun _ => Except.ok ⟨"u1", "a@x.com"⟩) (some "Bearer abc") =
      MwOutcome.authorized "u1" "a@x.com" := by
  refine ⟨(C9_middleware_contract (fun _ => Except.ok ⟨"u1", "a@x.com"⟩) none).1 rfl,
    (C9_middleware_contract (fun _ => Except.ok ⟨"u1", "a@x.com"⟩)
      (some "Basic abc")).2.1 "Basic abc" rfl (by decide), ?_⟩
  have h := (C9_middleware_contract (fun _ => Except.ok ⟨"u1", "a@x.com"⟩)
    (some "Bearer abc")).2.2 "Bearer abc" rfl (by decide)
  simpa using h

/-- A `findUnique` by email returns the store unchanged. -/
theorem findUniqueByEmail_snd (s : Store) (e : String) :
    (s.findUniqueByEmail e).2 = s :=
  rfl

/-- A `findUnique` by id returns the store unchanged. -/
theorem findUniqueById_snd (s : Store) (uid : String) :
    (s.findUniqueById uid).2 = s :=
  rfl

/-- A `create` appends exactly the one new record. -/
theorem create_snd (s : Store) (u : UserRecord) :
    (s.create u).2 = s ++ [u] :=
  rfl

/-- C10: the failing branch of `register` (duplicate email) leaves the store
unchanged; the successful branch appends exactly the one new record; and
`login`, `refreshAccessToken`, `getUserById` and the logout handler leave
the store unchanged in every outcome. -/
theorem C10_store_frame (svc : AuthService) (s : Store) :
    (∀ d newId now e, (svc.register s d newId now).1 = Except.error e →
      (svc.register s d newId now).2 = s) ∧
    (∀ d newId now resp, (svc.register s d newId now).1 = Except.ok resp →
      (svc.register s d newId now).2 =
        s ++ [{ id := newId, email := d.email,
                password := bcryptHash d.password 10,
                name := d.name, createdAt := now }]) ∧
    (∀ d now, (svc.login s d now).2 = s) ∧
    (∀ tok now, (svc.refreshAccessToken s tok now).2 = s) ∧
    (∀ uid, (svc.getUserById s uid).2 = s) ∧
    (logoutHandler s).2 = s := by
  refine ⟨?_, ?_, ?_, ?_, ?_, rfl⟩
  · intro d newId now e he
    cases hf : (s.findUniqueByEmail d.email).1 with
    | some u => simp [AuthService.register, hf, findUniqueByEmail_snd]
    | none => simp [AuthService.register, hf] at he
  · intro d newId now resp hr
    cases hf : (s.findUniqueByEmail d.email).1 with
    | some u => simp [AuthService.register, hf] at hr
    | none => simp [AuthService.register, hf, findUniqueByEmail_snd, create_snd]
  · intro d now
    cases hf : (s.findUniqueByEmail d.email).1 with
    | none => simp [AuthService.login, hf, findUniqueByEmail_snd]
    | some u =>
      cases hc : bcryptCompare d.password u.password with
      | false => simp [AuthService.login, hf, hc, findUniqueByEmail_snd]
      | true => simp [AuthService.login, hf, hc, findUniqueByEmail_snd]
  · intro tok now
    cases hv : jwtVerify tok svc.REFRESH_TOKEN_SECRET now with
    | error e => simp [AuthService.refreshAccessToken, hv]
    | ok payload =>
      cases hf : (s.findUniqueById payload.userId).1 with
      | none => simp [AuthService.refreshAccessToken, hv, hf, findUniqueById_snd]
      | some u => simp [AuthService.refreshAccessToken, hv, hf, findUniqueById_snd]
  · intro uid
    cases hf : (s.findUniqueById uid).1 with
    | none => simp [AuthService.getUserById, hf, findUniqueById_snd]
    | some u => simp [AuthService.getUserById, hf, findUniqueById_snd]

/-- C10 witness: a duplicate registration and a failing login at a concrete
store leave it unchanged, and a successful registration appends only the
new record. -/
theorem C10_store_frame_witness :
    (defaultAuthService.register [C5rec] ⟨"a@x.com", "Zzzz9999", none⟩ "u2" 5).2 =
      [C5rec] ∧
    (defaultAuthService.register [] ⟨"a@x.com", "Abcd1234", none⟩ "u1" 0).2 =
      [] ++ [{ id := "u1", email := "a@x.com",
               password := bcryptHash "Abcd1234" 10,
               name := none, createdAt := 0 }] ∧
    (defaultAuthService.login [C5rec] ⟨"a@x.com", "Wrong1234"⟩ 3).2 = [C5rec] ∧
    (defaultAuthService.refreshAccessToken [C5rec] (Token.malformed "zzz") 3).2 =
      [C5rec] ∧
    (defaultAuthService.getUserById [C5rec] "nobody").2 = [C5rec] :=
  ⟨(C10_store_frame defaultAuthService [C5rec]).1 ⟨"a@x.com", "Zzzz9999", none⟩
      "u2" 5 "User with this email already exists" (by rfl),
    (C10_store_frame defaultAuthService []).2.1 ⟨"a@x.com", "Abcd1234", none⟩
      "u1" 0
      { accessToken := defaultAuthService.generateAccessToken ⟨"u1", "a@x.com"⟩ 0
        refreshToken := defaultAuthService.generateRefreshToken ⟨"u1", "a@x.com"⟩ 0
        user := { id := "u1", email := "a@x.com", name := none } } (by rfl),
    (C10_store_frame defaultAuthService [C5rec]).2.2.1 ⟨"a@x.com", "Wrong1234"⟩ 3,
    (C10_store_frame defaultAuthService [C5rec]).2.2.2.1 (Token.malformed "zzz") 3,
    (C10_store_frame defaultAuthService [C5rec]).2.2.2.2.1 "nobody"⟩
